import Mathlib

/-!
Shallow embedding of the tabular-data ingestion ("normalize") pipeline of the
nomad-catalysis plugin, specifically the column classifier and reaction-record
builder of `CatalystTests.normalize`
(src/nomad_catalysis_test/schema_packages/catalyst_measurement.py, lines
464-634).  `CatalyticReactionCleanData.normalize`
(src/nomad_catalysis_test/schema_packages/schema.py, lines 598-790) contains a
line-for-line identical column scan and record assembly; the embedding below
covers both.

Modelling choices:
- a spreadsheet cell is NaN, ±inf, or a finite value kept as an exact
  rational (`Cell`); `np.nan_to_num` becomes `nanToNum`;
- NaN and the two infinities are modelled explicitly: division by zero
  yields ±inf (NaN for 0/0) as in IEEE float64, and `nanToNum` clamps ±inf
  to the exact largest finite float64 `±floatMax`, precisely as
  `np.nan_to_num` does; finite arithmetic itself is exact rational
  arithmetic, so rounding/overflow of finite operations is not modelled
  (no claim depends on it);
- a raised Python exception that escapes the normalizer becomes
  `Except.error`; the section state is left unmodified in that case, which the
  model expresses by not producing an output state;
- the external collaborators (the PubChem query, the archive results tree,
  plotting) are out of scope per the specification and modelled as failing
  silently; the repository-side parts of the name handling ARE modelled:
  the alias renaming of `Reagent.normalize` (`aliasName`), the hard-coded
  CO resolution of lines 175-181 (`iupacOf`), and the results-mirroring
  loops that rename the stored conversion/product entries of the record
  to the resolved IUPAC name (`conversionRename`, `productRename`).
-/

namespace NomadCatalysis

/-- A spreadsheet cell: NaN, one of the two float infinities, or a finite
value (kept as an exact rational; rounding of finite float arithmetic is
not modelled). -/
inductive Cell where
  | nan : Cell
  | posinf : Cell
  | neginf : Cell
  | num (q : ℚ) : Cell
deriving DecidableEq, Repr

/-- The largest finite float64, `(2^53 - 1) * 2^971` (= 1.7976931348623157e308),
the clamp `np.nan_to_num` applies to the infinities. -/
def floatMax : ℚ := (2 ^ 53 - 1) * 2 ^ 971

/-- Embeds `np.nan_to_num` with its default arguments: NaN becomes 0, +inf
becomes the largest finite float64, -inf its negation, finite values are
unchanged. -/
def nanToNum : Cell → Cell
  | .nan => .num 0
  | .posinf => .num floatMax
  | .neginf => .num (-floatMax)
  | .num q => .num q

/-- True when the cell counts as data in the pandas NA sense: only NaN is
NA; the infinities are data (kept by `dropna`). -/
def cellIsNum : Cell → Bool
  | .nan => false
  | _ => true

/-- Cell multiplication by a rational constant, IEEE-style on the special
values: NaN propagates, ±inf keeps or flips sign with the constant and
gives NaN at 0. -/
def cmul : Cell → ℚ → Cell
  | .nan, _ => .nan
  | .posinf, q => if 0 < q then .posinf else if q < 0 then .neginf else .nan
  | .neginf, q => if 0 < q then .neginf else if q < 0 then .posinf else .nan
  | .num a, q => .num (a * q)

/-- Cell division, IEEE-style: NaN propagates, inf/inf is NaN, a nonzero
finite value divided by zero gives the signed infinity (0/0 gives NaN),
finite/inf gives 0, and finite/finite is exact rational division. -/
def cdiv : Cell → Cell → Cell
  | .nan, _ => .nan
  | .posinf, .nan => .nan
  | .posinf, .posinf => .nan
  | .posinf, .neginf => .nan
  | .posinf, .num b => if 0 ≤ b then .posinf else .neginf
  | .neginf, .nan => .nan
  | .neginf, .posinf => .nan
  | .neginf, .neginf => .nan
  | .neginf, .num b => if 0 ≤ b then .neginf else .posinf
  | .num _, .nan => .nan
  | .num _, .posinf => .num 0
  | .num _, .neginf => .num 0
  | .num a, .num b =>
    if b = 0 then (if 0 < a then .posinf else if a < 0 then .neginf else .nan)
    else .num (a / b)

/-- `1 - r` on a cell, IEEE-style on the special values. -/
def oneMinus : Cell → Cell
  | .nan => .nan
  | .posinf => .neginf
  | .neginf => .posinf
  | .num q => .num (1 - q)

/-- The conversion formula `(1 - outlet/inlet) * 100` of the `y`-column
branch, evaluated on one pair of cells: at a zero inlet with positive
outlet this is `-inf`, which `nanToNum` then clamps to `-floatMax`,
exactly as `np.nan_to_num((1 - out/0) * 100)` does. -/
def convCell (o i : Cell) : Cell := cmul (oneMinus (cdiv o i)) 100

/-- Whether the list holds at least one numeric (non-NaN) cell. -/
def hasNum (l : List Cell) : Bool := l.any cellIsNum

/-- Character-level list splitter mirroring Python `str.split(sep)` for a
single-character separator (consecutive separators yield empty fields;
the empty string yields `[""]`). -/
def pySplitAux (sep : Char) : List Char → List Char → List (List Char)
  | [], acc => [acc.reverse]
  | c :: cs, acc =>
    if c == sep then acc.reverse :: pySplitAux sep cs []
    else pySplitAux sep cs (c :: acc)

/-- Embeds Python `s.split(sep)` for a one-character separator. -/
def pySplit (s : String) (sep : Char) : List String :=
  (pySplitAux sep s.data []).map (fun l => String.mk l)

/-- Whether `pat` occurs at the head of the character list. -/
def leadsWith : List Char → List Char → Bool
  | [], _ => true
  | _ :: _, [] => false
  | a :: as, b :: bs => a == b && leadsWith as bs

/-- Whether `pat` occurs anywhere in the character list. -/
def occursIn (pat : List Char) : List Char → Bool
  | [] => leadsWith pat []
  | c :: cs => leadsWith pat (c :: cs) || occursIn pat cs

/-- Embeds the Python substring test `pat in s`. -/
def strContains (s pat : String) : Bool := occursIn pat.data s.data

/-- Embeds Python `s.replace('_', ' ')` (single-character replacement). -/
def replaceUnderscore (s : String) : String :=
  String.mk (s.data.map (fun c => if c == '_' then ' ' else c))

/-- Embeds `os.path.splitext(path)[-1]`: the extension of the basename,
starting at its last dot, where the leading-dot run of the basename never
starts an extension. -/
def splitextExt (p : String) : String :=
  let base := ((pySplit p '/').getLastD p).data
  let k := (base.takeWhile (fun c => c == '.')).length
  let dotIdxs := (List.range base.length).filter
    (fun i => base.getD i ' ' == '.' && decide (k ≤ i))
  match dotIdxs.getLast? with
  | none => ""
  | some i => String.mk (base.drop i)

/-- A raw table: the ordered list of (column name, cells) pairs produced by
`pd.read_csv` / `pd.read_excel`. -/
abbrev RawTable := List (String × List Cell)

/-- Embeds `data[name]`: the cells of the first column with that name. -/
def lookupCol (t : RawTable) (name : String) : Option (List Cell) :=
  (t.find? (fun c => c.1 == name)).map (fun c => c.2)

/-- Embeds `data.dropna(axis=1, how='all')`: columns whose every cell is NaN
are removed (zero-row columns are kept; they are skipped later anyway). -/
def dropAllNan (t : RawTable) : RawTable :=
  t.filter (fun c => c.2.isEmpty || hasNum c.2)

/-- Catalyst mass unit chosen by the `mass`-column branch. -/
inductive MassUnit where
  | gram
  | milligram
deriving DecidableEq, Repr

/-- Temperature unit chosen by the temperature-column branches. -/
inductive TempUnit where
  | kelvin
  | celsius
deriving DecidableEq, Repr

/-- Embeds the `Reagent` section (the fields the scan writes). -/
structure Reagent where
  name : String
  gas_concentration_in : Option (List Cell) := none
deriving DecidableEq, Repr

/-- Embeds the `Reactant` section (a Reagent with conversion data). -/
structure Reactant where
  name : String
  gas_concentration_in : Option (List Cell) := none
  gas_concentration_out : Option (List Cell) := none
  conversion : Option (List Cell) := none
  conversion_type : Option String := none
  conversion_product_based : Option (List Cell) := none
  conversion_reactant_based : Option (List Cell) := none
deriving DecidableEq, Repr

/-- Embeds the `Product` section (the fields the scan writes). -/
structure Product where
  name : String
  gas_concentration_out : Option (List Cell) := none
  selectivity : Option (List Cell) := none
deriving DecidableEq, Repr

/-- Embeds the `Rates` section (the fields the scan writes). -/
structure Rates where
  name : String
  reaction_rate : Option (List Cell) := none
deriving DecidableEq, Repr

/-- Embeds the `ReactorFilling` section (the field the scan writes). -/
structure ReactorFilling where
  catalyst_mass : Option (Cell × MassUnit) := none
deriving DecidableEq, Repr

/-- Embeds the `ReactionConditions` section (`feed` in the source). -/
structure ReactionConditions where
  runs : Option (List Cell) := none
  set_temperature : Option (List Cell × TempUnit) := none
  set_pressure : Option (List Cell) := none
  set_total_flow_rate : Option (List Cell) := none
  weight_hourly_space_velocity : Option (List Cell × MassUnit) := none
  gas_hourly_space_velocity : Option (List Cell) := none
  time_on_stream : Option (List Cell) := none
  reagents : List Reagent := []
deriving DecidableEq, Repr

/-- Embeds the `CatalyticReactionData` section (`cat_data` in the source). -/
structure CatalyticReactionData where
  runs : Option (List Cell) := none
  temperature : Option (List Cell × TempUnit) := none
  pressure : Option (List Cell) := none
  time_on_stream : Option (List Cell) := none
  c_balance : Option (List Cell) := none
  reactants_conversions : List Reactant := []
  products : List Product := []
  rates : List Rates := []
deriving DecidableEq, Repr

/-- The local accumulator state of the column-scan loop. -/
structure ScanState where
  feed : ReactionConditions := {}
  reactor_filling : ReactorFilling := {}
  cat_data : CatalyticReactionData := {}
  reagents : List Reagent := []
  reagent_names : List String := []
  products : List Product := []
  product_names : List String := []
  conversions : List Reactant := []
  conversion_names : List String := []
  rates : List Rates := []
  number_of_runs : Nat := 0
deriving DecidableEq, Repr

/-- Errors that escape the normalizer: the unsupported-format `ValueError`,
and a `KeyError` from a `data[...]` lookup that no handler catches. -/
inductive NormError where
  | unsupportedFormat
  | keyError
deriving DecidableEq, Repr

/-- The only exception the column scan itself can raise is a `KeyError` from
a `data[...]` lookup (mirroring that the Python loop body raises nothing
else that escapes it). -/
inductive ScanError where
  | keyError
deriving DecidableEq, Repr

/-- Embeds the `for i, p in enumerate(conversions): if p.name == name:
conversion = conversions.pop(i)` loop of the `x_p`/`x_r` branches: popping
while enumerating advances the index past the element that slides into the
popped slot, so that element is retained unexamined; the last examined match
is returned, earlier matches are popped and discarded. -/
def popScan (name : String) : List Reactant → Option Reactant × List Reactant
  | [] => (none, [])
  | p :: rest =>
    if p.name == name then
      match rest with
      | [] => (some p, [])
      | q :: rest2 =>
        let pr := popScan name rest2
        (some (pr.1.getD p), q :: pr.2)
    else
      let pr := popScan name rest
      (pr.1, p :: pr.2)

/-- Embeds the `S_p` merge loop (which `break`s on the first match): remove
and return the first product with the given name. -/
def popFirst (name : String) : List Product → Option Product × List Product
  | [] => (none, [])
  | p :: rest =>
    if p.name == name then (some p, rest)
    else
      let pr := popFirst name rest
      (pr.1, p :: pr.2)

/-- Embeds one iteration of the column-scan loop (lines 505-615 of
catalyst_measurement.py, identically lines 631-741 of schema.py): skip
columns with no data point or fewer than two space-separated tokens, bump
the run counter, dispatch on the first token, then — only when a third token
equals `"(%)"` — dispatch the conversion/selectivity branches.  `data` is the
full (NaN-column-dropped) table, consulted by the `data[...]` lookups of the
`step`, `x_r` and `y` branches. -/
def processCol (data : RawTable) (s : ScanState) (c : String × List Cell) :
    Except ScanError ScanState :=
  if c.2.length < 1 then .ok s else
  match pySplit c.1 ' ' with
  | [] => .ok s
  | [_] => .ok s
  | tok0 :: tok1 :: restToks =>
    let s := if c.2.length > s.number_of_runs then
        { s with number_of_runs := c.2.length } else s
    let afterDispatch1 : Except ScanError ScanState :=
      if tok0 == "step" then
        match lookupCol data "step" with
        | none => .error .keyError
        | some sv =>
          .ok { s with feed := { s.feed with runs := some sv },
                       cat_data := { s.cat_data with runs := some sv } }
      else if tok0 == "x" then
        .ok { s with
          reagents := s.reagents ++ [⟨tok1, some c.2⟩],
          reagent_names := s.reagent_names ++ [tok1] }
      else if tok0 == "mass" then
        let v0 := c.2.headD .nan
        if strContains tok1 "(g)" then
          .ok { s with reactor_filling := { catalyst_mass := some (v0, .gram) } }
        else if strContains tok1 "mg" then
          .ok { s with reactor_filling := { catalyst_mass := some (v0, .milligram) } }
        else .ok s
      else if tok0 == "set_temperature" then
        let u : TempUnit := if strContains tok1 "K" then .kelvin else .celsius
        .ok { s with feed := { s.feed with
                set_temperature := some (c.2.map nanToNum, u) } }
      else if tok0 == "temperature" then
        let u : TempUnit := if strContains tok1 "K" then .kelvin else .celsius
        .ok { s with cat_data := { s.cat_data with
                temperature := some (c.2.map nanToNum, u) } }
      else if tok0 == "TOS" then
        .ok { s with
          cat_data := { s.cat_data with time_on_stream := some c.2 },
          feed := { s.feed with time_on_stream := some c.2 } }
      else if tok0 == "C-balance" then
        .ok { s with cat_data := { s.cat_data with
                c_balance := some (c.2.map nanToNum) } }
      else if tok0 == "GHSV" then
        .ok { s with feed := { s.feed with
                gas_hourly_space_velocity := some (c.2.map nanToNum) } }
      else if tok0 == "Vflow" then
        .ok { s with feed := { s.feed with
                set_total_flow_rate := some (c.2.map nanToNum) } }
      else if tok0 == "set_pressure" then
        .ok { s with feed := { s.feed with
                set_pressure := some (c.2.map nanToNum) } }
      else if tok0 == "pressure" then
        .ok { s with cat_data := { s.cat_data with
                pressure := some (c.2.map nanToNum) } }
      else if tok0 == "r" then
        .ok { s with rates := s.rates ++ [⟨tok1, some (c.2.map nanToNum)⟩] }
      else .ok s
    match afterDispatch1 with
    | .error e => .error e
    | .ok s2 =>
      match restToks with
      | [] => .ok s2
      | tok2 :: _ =>
        if tok2 == "(%)" then
          let cVals := c.2.map nanToNum
          if tok0 == "x_p" then
            let pr := popScan tok1 s2.conversions
            let conversion : Reactant :=
              match pr.1 with
              | some p => p
              | none => ⟨tok1, none, none, some cVals,
                  some "product-based conversion", some cVals, none⟩
            let conversion := { conversion with
              conversion_product_based := some cVals,
              conversion := some cVals,
              conversion_type := some "product-based conversion" }
            .ok { s2 with
              conversions := pr.2 ++ [conversion],
              conversion_names := s2.conversion_names ++ [tok1] }
          else if tok0 == "x_r" then
            match lookupCol data ("x " ++ tok1 ++ " (%)") with
            | some g =>
              let fresh : Reactant := ⟨tok1, some (g.map nanToNum), none,
                some cVals, some "reactant-based conversion", none, some cVals⟩
              let pr := popScan tok1 s2.conversions
              let conversion :=
                match pr.1 with
                | some p => { p with conversion_reactant_based := some cVals }
                | none => fresh
              .ok { s2 with conversions := pr.2 ++ [conversion] }
            | none =>
              match lookupCol data ("x " ++ tok1) with
              | some g =>
                let fresh : Reactant :=
                  ⟨tok1, some (g.map (fun v => cmul (nanToNum v) 100)), none,
                   some cVals, some "reactant-based conversion", none, some cVals⟩
                let pr := popScan tok1 s2.conversions
                let conversion :=
                  match pr.1 with
                  | some p => { p with conversion_reactant_based := some cVals }
                  | none => fresh
                .ok { s2 with conversions := pr.2 ++ [conversion] }
              | none => .error .keyError
          else if tok0 == "y" then
            if s2.reagent_names.contains tok1 then
              match lookupCol data ("x " ++ tok1 ++ " (%)") with
              | none => .error .keyError
              | some xin =>
                let conversion : Reactant :=
                  ⟨tok1, some (xin.map nanToNum), some cVals,
                   some ((List.zipWith convCell c.2 xin).map nanToNum),
                   none, none, none⟩
                .ok { s2 with conversions := s2.conversions ++ [conversion] }
            else
              .ok { s2 with
                products := s2.products ++ [⟨tok1, some cVals, none⟩],
                product_names := s2.product_names ++ [tok1] }
          else if tok0 == "S_p" then
            let pr := popFirst tok1 s2.products
            let product : Product :=
              match pr.1 with
              | some p => { p with selectivity := some cVals }
              | none => ⟨tok1, none, some cVals⟩
            .ok { s2 with
              products := pr.2 ++ [product],
              product_names := s2.product_names ++ [tok1] }
          else .ok s2
        else .ok s2

/-- Embeds the whole column-scan loop as a fold over the table's columns. -/
def scanCols (data : RawTable) : Except ScanError ScanState :=
  data.foldlM (fun s c => processCol data s c) {}

/-- Embeds the pure alias-renaming part of `Reagent.normalize` (lines 153-162):
a fixed skip list, two explicit aliases, and underscore-to-space replacement.
The subsequent PubChem pure-substance resolution is an external collaborator
(out of scope per the specification) and is not modelled. -/
def aliasName (n : String) : String :=
  if n ∈ ["C5-1", "C6-1", "nC5", "nC6", "Unknown", "inert", "P>=5C"] then n
  else if n == "n-Butene" then "1-butene"
  else if n == "MAN" then "maleic anhydride"
  else if strContains n "_" then replaceUnderscore n
  else n

/-- The renaming `Reagent.normalize` performs on a reagent built by the scan
(its name is always set, so the early-return-on-None branch never fires). -/
def reagentNormalize (r : Reagent) : Reagent := { r with name := aliasName r.name }

/-- The renaming applied to each product by
`self.reaction_results.normalize(...)` (which calls the shared
`Reagent.normalize` on every product without a resolved pure component):
the same pure alias-renaming; the PubChem part is external. -/
def productNormalize (p : Product) : Product := { p with name := aliasName p.name }

/-- The IUPAC name of a reagent's/product's pure component as determined by
repository code alone, after `Reagent.normalize` on the (alias-renamed)
name: lines 175-181 hard-code `carbon monoxide` whenever the name is `CO`
or `carbon monoxide`, with no network involved; every other resolution
comes from the external PubChem query, modelled as unavailable (the
`iupac_name` stays unset, and the `CO2` fallback of lines 171-173 tests the
externally-filled molecular formula, so it stays inert).  Names on the
skip list of lines 155-156 get no pure component at all; the
conversion-mirroring loop would crash on an attribute access for those
(repository bug, not modelled — no claim touches such names). -/
def iupacOf (n : String) : Option String :=
  if n == "CO" || n == "carbon monoxide" then some "carbon monoxide" else none

/-- Embeds the inner `for j in reagents` loop of the results-mirroring pass
(catalyst_measurement.py lines 643-648, schema.py lines 802-807): walk the
normalized reagents and, at each one whose name equals the current name,
replace the current name with that reagent's resolved IUPAC name when there
is one; later comparisons see the updated name, exactly as the in-place
`i.name = ...` mutation does. -/
def renameFromReagents (reagents : List Reagent) (n : String) : String :=
  reagents.foldl
    (fun cur j => if cur == j.name then (iupacOf j.name).getD cur else cur) n

/-- Embeds the rename the conversions-mirroring loop performs on each stored
Reactant entry (the loop mutates the very objects held in
`reaction_results.reactants_conversions`): entries named like an inert gas
are skipped, every other entry has its name pushed through the reagent
lookup. -/
def conversionRename (reagents : List Reagent) (i : Reactant) : Reactant :=
  if i.name ∈ ["He", "helium", "Ar", "argon", "inert"] then i
  else { i with name := renameFromReagents reagents i.name }

/-- Embeds the rename the products-mirroring loop performs on each stored
Product entry (catalyst_measurement.py lines 650-653, schema.py lines
809-812): when the product's own pure component resolved an IUPAC name, the
stored name becomes that name. -/
def productRename (p : Product) : Product :=
  { p with name := (iupacOf p.name).getD p.name }

/-- Embeds `np.linspace(0, number_of_runs - 1, number_of_runs)`: the run
indices `0, 1, ..., n-1` (empty when `n = 0`). -/
def linspaceRuns (n : Nat) : List Cell := (List.range n).map (fun i => Cell.num i)

/-- The part of the normalizer's state the record assembly writes back onto
the section (`self.reaction_conditions`, `self.reaction_results` /
`self.results[0]`, `self.reactor_filling`). -/
structure EntryState where
  reaction_conditions : Option ReactionConditions := none
  reaction_results : Option CatalyticReactionData := none
  reactor_filling : Option ReactorFilling := none
deriving DecidableEq, Repr

/-- Embeds the record assembly after the scan (lines 617-636 of
catalyst_measurement.py): normalize the reagents' names, attach them to the
conditions, derive the weight-hourly space velocity when both operands exist,
default the run index, attach products/conversions/rates, write the sections
back (the reactor filling only when none was set before), apply the pure
part of `reaction_results.normalize` to the products, and apply the renames
the results-mirroring loops perform in place on the stored
conversion/product entries (NOMAD subsection assignment re-parents the same
objects, so the mutation is visible in the record).  With the external
PubChem query unavailable, the only resolved IUPAC name is the hard-coded
`CO` → `carbon monoxide` one, which fires deterministically. -/
def finishScan (s : ScanState) (st : EntryState) : EntryState :=
  let reagents := s.reagents.map reagentNormalize
  let feed := { s.feed with reagents := reagents }
  let feed :=
    match feed.set_total_flow_rate, s.reactor_filling.catalyst_mass with
    | some flow, some (m, u) =>
      let whsv := (flow.map (fun f => cdiv f m), u)
      { feed with weight_hourly_space_velocity := some whsv }
    | _, _ => feed
  let catd := s.cat_data
  let catd := if catd.runs = none then
      { catd with runs := some (linspaceRuns s.number_of_runs) } else catd
  let catd := { catd with
    products := (s.products.map productNormalize).map productRename }
  let catd := if s.conversions ≠ [] then
      { catd with reactants_conversions :=
          s.conversions.map (conversionRename reagents) } else catd
  let catd := { catd with rates := s.rates }
  { reaction_conditions := some feed,
    reaction_results := some catd,
    reactor_filling :=
      if st.reactor_filling = none then some s.reactor_filling
      else st.reactor_filling }

/-- Embeds the ingestion entry point `normalize(self, archive, logger)` for a
section whose `data_file` is `dataFile` and whose file, once read by pandas,
materializes to `table`: return unchanged when no file is set, raise the
unsupported-format `ValueError` unless the extension is `.csv` or `.xlsx`,
drop all-NaN columns, scan, and assemble the record.  An `Except.error`
models an exception escaping `normalize`, which leaves the section state
unchanged (nothing is assigned before the raise). -/
def normalizeEntry (dataFile : Option String) (table : RawTable)
    (st : EntryState) : Except NormError EntryState :=
  match dataFile with
  | none => .ok st
  | some f =>
    if splitextExt f != ".csv" && splitextExt f != ".xlsx" then
      .error .unsupportedFormat
    else
      let data := dropAllNan table
      match scanCols data with
      | .error .keyError => .error .keyError
      | .ok s => .ok (finishScan s st)

/-- The output state of a successful ingestion, `none` when it aborted. -/
def okEntry : Except NormError EntryState → Option EntryState
  | .ok st => some st
  | .error _ => none

/-- The reagents attached to the reaction conditions of a finished record. -/
def entryReagents (r : Except NormError EntryState) : Option (List Reagent) :=
  (okEntry r).bind fun st => st.reaction_conditions.map (fun f => f.reagents)

/-- The reactants-conversions list of a finished record. -/
def entryConversions (r : Except NormError EntryState) : Option (List Reactant) :=
  (okEntry r).bind fun st => st.reaction_results.map (fun c => c.reactants_conversions)

/-- The products list of a finished record. -/
def entryProducts (r : Except NormError EntryState) : Option (List Product) :=
  (okEntry r).bind fun st => st.reaction_results.map (fun c => c.products)

/-- The run-index sequence of a finished record. -/
def entryRuns (r : Except NormError EntryState) : Option (List Cell) :=
  (okEntry r).bind fun st => st.reaction_results.bind (fun c => c.runs)

/-- The catalyst mass of a finished record. -/
def entryMass (r : Except NormError EntryState) : Option (Cell × MassUnit) :=
  (okEntry r).bind fun st => st.reactor_filling.bind (fun rf => rf.catalyst_mass)

/-- The time-on-stream sequence of a finished record. -/
def entryTimeOnStream (r : Except NormError EntryState) : Option (List Cell) :=
  (okEntry r).bind fun st => st.reaction_results.bind (fun c => c.time_on_stream)

/-- A concrete two-column table used to witness idempotence of the pipeline. -/
def idemTable : RawTable := [("x CO (%)", [.num 2]), ("temperature K", [.num 300])]

/-- The record the pipeline builds from `idemTable` on a fresh section. -/
def idemOut : EntryState where
  reaction_conditions := some { reagents := [⟨"CO", some [.num 2]⟩] }
  reaction_results := some
    { runs := some [.num 0],
      temperature := some ([.num 300], .kelvin) }
  reactor_filling := some {}

/-- A list with a numeric cell is nonempty. -/
theorem hasNum_not_short {l : List Cell} (h : hasNum l = true) : ¬ (l.length < 1) := by
  cases l with
  | nil => simp [hasNum] at h
  | cons a t => simp

/-- A list with a numeric cell has positive length. -/
theorem hasNum_pos {l : List Cell} (h : hasNum l = true) : 0 < l.length := by
  cases l with
  | nil => simp [hasNum] at h
  | cons a t => simp

@[simp]
theorem exceptBind_ok {ε α β : Type} (a : α) (f : α → Except ε β) :
    (Except.ok a : Except ε α) >>= f = f a := rfl

@[simp]
theorem exceptBind_error {ε α β : Type} (e : ε) (f : α → Except ε β) :
    (Except.error e : Except ε α) >>= f = Except.error e := rfl

@[simp]
theorem exceptMap_ok {ε α β : Type} (f : α → β) (a : α) :
    Except.map f (Except.ok a : Except ε α) = .ok (f a) := rfl

@[simp]
theorem ite_scan_feed (c : Prop) [Decidable c] (x y : ScanState) :
    (if c then x else y).feed = if c then x.feed else y.feed := by split <;> rfl

@[simp]
theorem ite_scan_rf (c : Prop) [Decidable c] (x y : ScanState) :
    (if c then x else y).reactor_filling =
      if c then x.reactor_filling else y.reactor_filling := by split <;> rfl

@[simp]
theorem ite_scan_cat (c : Prop) [Decidable c] (x y : ScanState) :
    (if c then x else y).cat_data = if c then x.cat_data else y.cat_data := by
  split <;> rfl

@[simp]
theorem ite_scan_reagents (c : Prop) [Decidable c] (x y : ScanState) :
    (if c then x else y).reagents = if c then x.reagents else y.reagents := by
  split <;> rfl

@[simp]
theorem ite_scan_reagent_names (c : Prop) [Decidable c] (x y : ScanState) :
    (if c then x else y).reagent_names =
      if c then x.reagent_names else y.reagent_names := by split <;> rfl

@[simp]
theorem ite_scan_products (c : Prop) [Decidable c] (x y : ScanState) :
    (if c then x else y).products = if c then x.products else y.products := by
  split <;> rfl

@[simp]
theorem ite_scan_product_names (c : Prop) [Decidable c] (x y : ScanState) :
    (if c then x else y).product_names =
      if c then x.product_names else y.product_names := by split <;> rfl

@[simp]
theorem ite_scan_conversions (c : Prop) [Decidable c] (x y : ScanState) :
    (if c then x else y).conversions =
      if c then x.conversions else y.conversions := by split <;> rfl

@[simp]
theorem ite_scan_conversion_names (c : Prop) [Decidable c] (x y : ScanState) :
    (if c then x else y).conversion_names =
      if c then x.conversion_names else y.conversion_names := by split <;> rfl

@[simp]
theorem ite_scan_rates (c : Prop) [Decidable c] (x y : ScanState) :
    (if c then x else y).rates = if c then x.rates else y.rates := by
  split <;> rfl

@[simp]
theorem ite_scan_runs_count (c : Prop) [Decidable c] (x y : ScanState) :
    (if c then x else y).number_of_runs =
      if c then x.number_of_runs else y.number_of_runs := by split <;> rfl

@[simp]
theorem ite_cat_runs (c : Prop) [Decidable c] (x y : CatalyticReactionData) :
    (if c then x else y).runs = if c then x.runs else y.runs := by split <;> rfl

@[simp]
theorem ite_cat_rc (c : Prop) [Decidable c] (x y : CatalyticReactionData) :
    (if c then x else y).reactants_conversions =
      if c then x.reactants_conversions else y.reactants_conversions := by
  split <;> rfl

@[simp]
theorem ite_cat_products (c : Prop) [Decidable c] (x y : CatalyticReactionData) :
    (if c then x else y).products = if c then x.products else y.products := by
  split <;> rfl

@[simp]
theorem ite_cat_temperature (c : Prop) [Decidable c] (x y : CatalyticReactionData) :
    (if c then x else y).temperature =
      if c then x.temperature else y.temperature := by split <;> rfl

@[simp]
theorem ite_cat_tos (c : Prop) [Decidable c] (x y : CatalyticReactionData) :
    (if c then x else y).time_on_stream =
      if c then x.time_on_stream else y.time_on_stream := by split <;> rfl

/-- A column with a numeric cell survives the all-NaN column drop. -/
theorem dropAllNan_keeps {l : List Cell} (h : hasNum l = true) (n : String) :
    (fun c => c.2.isEmpty || hasNum c.2) (n, l) = true := by
  simp [h]

/-- Re-running the record assembly on its own output changes nothing: the
only state-dependent write is the reactor filling, which the first run always
sets. -/
theorem finishScan_idem (sc : ScanState) (st : EntryState) :
    finishScan sc (finishScan sc st) = finishScan sc st := by
  unfold finishScan
  by_cases h : st.reactor_filling = none <;> simp [h]

/-- C3: a `mass` column whose unit token is `(mg)` records the catalyst mass
in milligrams and one whose unit token is `(g)` records it in grams, for any
cell values and any prior scan state; the classification is not confused by
`"g"` occurring as a substring of `"mg"` (the `'(g)'` test fails on `"(mg)"`
and the `'mg'` test then succeeds).  The last two conjuncts run the whole
ingestion pipeline on one-column tables. -/
theorem C3_mass_unit_disambiguation (d : RawTable) (s : ScanState) (v : Cell)
    (rest : List Cell) :
    ((processCol d s ("mass (mg)", v :: rest)).map
        (fun st => st.reactor_filling.catalyst_mass) = .ok (some (v, .milligram)))
  ∧ ((processCol d s ("mass (g)", v :: rest)).map
        (fun st => st.reactor_filling.catalyst_mass) = .ok (some (v, .gram)))
  ∧ entryMass (normalizeEntry (some "f.csv") [("mass (mg)", [.num 3])] {})
      = some (.num 3, .milligram)
  ∧ entryMass (normalizeEntry (some "f.csv") [("mass (g)", [.num 3])] {})
      = some (.num 3, .gram) := by
  refine ⟨?_, ?_, rfl, rfl⟩ <;>
    (unfold processCol;
     simp [pySplit, pySplitAux, strContains, occursIn, leadsWith, Except.map])

/-- C10: only the first cell of a `mass` column determines the catalyst mass
(the trailing cells `rest` do not appear in the result), and a `mass` column
whose second token contains neither `(g)` nor `mg` leaves the scan state
unchanged apart from the run-count bookkeeping (catalyst mass unset, column
silently ignored). -/
theorem C10_mass_first_cell_and_unknown_unit (d : RawTable) (s : ScanState)
    (v : Cell) (rest : List Cell) (u hdr : String)
    (hg : strContains u "(g)" = false) (hmg : strContains u "mg" = false)
    (hsplit : pySplit hdr ' ' = ["mass", u]) :
    ((processCol d s ("mass (g)", v :: rest)).map
        (fun st => st.reactor_filling.catalyst_mass) = .ok (some (v, .gram)))
  ∧ ((processCol d s ("mass (mg)", v :: rest)).map
        (fun st => st.reactor_filling.catalyst_mass) = .ok (some (v, .milligram)))
  ∧ (processCol d s (hdr, v :: rest)
      = .ok (if (v :: rest).length > s.number_of_runs
             then { s with number_of_runs := (v :: rest).length } else s)) := by
  refine ⟨?_, ?_, ?_⟩
  · unfold processCol
    simp [pySplit, pySplitAux, strContains, occursIn, leadsWith, Except.map]
  · unfold processCol
    simp [pySplit, pySplitAux, strContains, occursIn, leadsWith, Except.map]
  · unfold processCol
    rw [hsplit]
    simp [hg, hmg]

/-- C10 witness: the theorem applied to the header `mass cat`, whose second
token `cat` contains neither `(g)` nor `mg`, on a fresh scan state. -/
theorem C10_mass_first_cell_and_unknown_unit_witness :
    strContains "cat" "(g)" = false ∧ strContains "cat" "mg" = false ∧
    pySplit "mass cat" ' ' = ["mass", "cat"] ∧
    processCol [] {} ("mass cat", [.num 7, .num 8]) = .ok { number_of_runs := 2 } := by
  refine ⟨rfl, rfl, rfl, ?_⟩
  exact (C10_mass_first_cell_and_unknown_unit [] {} (.num 7) [.num 8] "cat"
    "mass cat" rfl rfl rfl).2.2

/-- C1 counterexample: on the concrete table with columns `x CO (%)` holding
`[1, NaN]` and `TOS h` holding `[2, NaN]`, the finished record keeps the NaN
cells verbatim in the reagent's inlet-fraction sequence and in the
time-on-stream sequence — position 1 holds NaN, not 0 — refuting the claim
that every NaN cell of the inlet-fraction and time-on-stream columns is
stored as 0. -/
theorem C1_counterexample :
    entryReagents (normalizeEntry (some "f.csv")
        [("x CO (%)", [.num 1, .nan]), ("TOS h", [.num 2, .nan])] {})
      = some [⟨"CO", some [.num 1, .nan]⟩]
  ∧ entryTimeOnStream (normalizeEntry (some "f.csv")
        [("x CO (%)", [.num 1, .nan]), ("TOS h", [.num 2, .nan])] {})
      = some [.num 2, .nan]
  ∧ Cell.nan ≠ Cell.num 0 := by
  refine ⟨rfl, rfl, by decide⟩

/-- C1 (amended): NaN cells are coerced to 0 for the temperature,
set-temperature, pressure, set-pressure, carbon-balance, rate, conversion
(`x_p`, `x_r`) and selectivity (`S_p`) columns — each stored sequence is the
`nanToNum` image of the column — but the inlet fractions read from an `x`
column and the time-on-stream column are stored verbatim, NaN included (an
`x` column's values are only coerced when re-read through the `x_r` lookup).
Stated per column on an arbitrary prior scan state. -/
theorem C1_nan_coercion_amended (d : RawTable) (s : ScanState) (v : Cell)
    (rest : List Cell) (xs : List Cell) :
    ((processCol d s ("temperature K", v :: rest)).map
        (fun st => st.cat_data.temperature)
      = .ok (some ((v :: rest).map nanToNum, .kelvin)))
  ∧ ((processCol d s ("set_temperature K", v :: rest)).map
        (fun st => st.feed.set_temperature)
      = .ok (some ((v :: rest).map nanToNum, .kelvin)))
  ∧ ((processCol d s ("pressure (bar)", v :: rest)).map
        (fun st => st.cat_data.pressure) = .ok (some ((v :: rest).map nanToNum)))
  ∧ ((processCol d s ("set_pressure (bar)", v :: rest)).map
        (fun st => st.feed.set_pressure) = .ok (some ((v :: rest).map nanToNum)))
  ∧ ((processCol d s ("C-balance (%)", v :: rest)).map
        (fun st => st.cat_data.c_balance) = .ok (some ((v :: rest).map nanToNum)))
  ∧ ((processCol d s ("r CO", v :: rest)).map (fun st => st.rates)
      = .ok (s.rates ++ [⟨"CO", some ((v :: rest).map nanToNum)⟩]))
  ∧ ((processCol d s ("x_p CO (%)", v :: rest)).map
        (fun st => st.conversions.getLast?.map
          (fun r => (r.conversion, r.conversion_product_based)))
      = .ok (some (some ((v :: rest).map nanToNum), some ((v :: rest).map nanToNum))))
  ∧ ((processCol [("x CO (%)", xs)] s ("x_r CO (%)", v :: rest)).map
        (fun st => st.conversions.getLast?.map (fun r => r.conversion_reactant_based))
      = .ok (some (some ((v :: rest).map nanToNum))))
  ∧ ((processCol d s ("S_p CO (%)", v :: rest)).map
        (fun st => st.products.getLast?.map (fun p => p.selectivity))
      = .ok (some (some ((v :: rest).map nanToNum))))
  ∧ ((processCol d s ("x CO", v :: rest)).map (fun st => st.reagents)
      = .ok (s.reagents ++ [⟨"CO", some (v :: rest)⟩]))
  ∧ ((processCol d s ("TOS h", v :: rest)).map
        (fun st => (st.cat_data.time_on_stream, st.feed.time_on_stream))
      = .ok (some (v :: rest), some (v :: rest))) := by
  refine ⟨?_, ?_, ?_, ?_, ?_, ?_, ?_, ?_, ?_, ?_, ?_⟩ <;>
    (unfold processCol;
     simp [pySplit, pySplitAux, strContains, occursIn, leadsWith, Except.map,
           lookupCol, List.find?]) <;>
    (repeat' split) <;> simp

/-- C2 counterexample: the table with columns `x CO (%)`, `x_r CO (%)` and
`y CO (%)` contains both an `x CO (%)` and an `x_r CO (%)` column, yet the
finished record holds TWO Reactant entries for the species (the `y` branch
appends without searching for an existing same-named entry; both entries
then carry the canonicalized name `carbon monoxide` from the in-repo CO
resolution), refuting the claim that repeated species names across
conversion-type columns always merge into exactly one entry. -/
theorem C2_counterexample :
    (entryConversions (normalizeEntry (some "f.csv")
        [("x CO (%)", [.num 2]), ("x_r CO (%)", [.num 50]), ("y CO (%)", [.num 1])]
        {})).map (fun l => l.map (fun r => r.name))
      = some ["carbon monoxide", "carbon monoxide"] := rfl

/-- C2 (amended): for a table whose columns are `x CO (%)` (values `a`) and
`x_r CO (%)` (values `b`), each holding at least one numeric cell, the
finished record has exactly one Reactant entry named `CO`, carrying both the
inlet gas fraction (the NaN-coerced `x` column) and the reactant-based
conversion (the NaN-coerced `x_r` column); the entry's final name is the
canonicalized `carbon monoxide` (the in-repo CO resolution plus the
results-mirroring rename).  The merge-by-name rule holds for the
`x_p`/`x_r`/`S_p` branches, but a later `y CO (%)` column appends a
duplicate entry instead of merging (see the counterexample). -/
theorem C2_single_merged_reactant_amended (a b : List Cell)
    (ha : hasNum a = true) (hb : hasNum b = true) :
    entryConversions (normalizeEntry (some "f.csv")
        [("x CO (%)", a), ("x_r CO (%)", b)] {})
      = some [⟨"carbon monoxide", some (a.map nanToNum), none, some (b.map nanToNum),
              some "reactant-based conversion", none, some (b.map nanToNum)⟩]
  ∧ entryReagents (normalizeEntry (some "f.csv")
        [("x CO (%)", a), ("x_r CO (%)", b)] {})
      = some [⟨"CO", some a⟩] := by
  have h0a := hasNum_pos ha
  have h0b := hasNum_pos hb
  have hcsv : splitextExt "f.csv" = ".csv" := rfl
  unfold normalizeEntry scanCols
  simp only [dropAllNan, hcsv, List.filter, ha, hb, Bool.or_true, List.foldlM]
  have hna : a ≠ [] := List.length_pos.mp h0a
  have hnb : b ≠ [] := List.length_pos.mp h0b
  unfold processCol
  simp [pySplit, pySplitAux, strContains, occursIn, leadsWith,
        lookupCol, List.find?, h0a, h0b, hna, hnb, popScan, finishScan,
        entryConversions, entryReagents, okEntry, aliasName, reagentNormalize,
        linspaceRuns, iupacOf, renameFromReagents, conversionRename,
        productRename, productNormalize]

/-- C2 witness: the amended theorem applied to the concrete columns
`x CO (%) = [2, NaN]` and `x_r CO (%) = [50]`. -/
theorem C2_single_merged_reactant_amended_witness :
    hasNum [Cell.num 2, Cell.nan] = true ∧ hasNum [Cell.num 50] = true ∧
    entryConversions (normalizeEntry (some "f.csv")
        [("x CO (%)", [.num 2, .nan]), ("x_r CO (%)", [.num 50])] {})
      = some [⟨"carbon monoxide", some [.num 2, .num 0], none, some [.num 50],
              some "reactant-based conversion", none, some [.num 50]⟩] :=
  ⟨rfl, rfl, (C2_single_merged_reactant_amended [.num 2, .nan] [.num 50] rfl rfl).1⟩

/-- C4 counterexample: in the table with columns `x CO` and `y CO (%)`, the
species `CO` appeared earlier as an inlet reagent name, yet the `y` column is
not stored as a Reactant's outlet concentration — the branch looks up the
fixed header `x CO (%)`, which does not exist, and the uncaught `KeyError`
aborts the whole ingestion. -/
theorem C4_counterexample :
    normalizeEntry (some "f.csv") [("x CO", [.num 2]), ("y CO (%)", [.num 1])] {}
      = .error .keyError := rfl

/-- C4 (amended): for a `y CO (%)` column, if `CO` appeared earlier as an
inlet reagent name AND the inlet column is literally `x CO (%)`, the column
is stored as a Reactant's outlet gas concentration with conversion
`(1 - outlet/inlet) * 100` per run (NaN-coerced, a zero inlet giving the
clamped `±floatMax`); if `CO` was not seen before, the column becomes a new
Product's outlet concentration; but when the inlet column lacks the ` (%)`
suffix, the lookup of `x CO (%)` raises an uncaught KeyError and the
ingestion aborts (see the counterexample).  The stored entries carry the
canonicalized name `carbon monoxide` from the in-repo CO resolution. -/
theorem C4_y_disambiguation_amended (a b : List Cell)
    (ha : hasNum a = true) (hb : hasNum b = true) :
    (entryConversions (normalizeEntry (some "f.csv")
        [("x CO (%)", a), ("y CO (%)", b)] {})
      = some [⟨"carbon monoxide", some (a.map nanToNum), some (b.map nanToNum),
              some ((List.zipWith convCell b a).map nanToNum), none, none, none⟩])
  ∧ (entryProducts (normalizeEntry (some "f.csv")
        [("x CO (%)", a), ("y CO (%)", b)] {}) = some [])
  ∧ (entryProducts (normalizeEntry (some "f.csv") [("y CO (%)", b)] {})
      = some [⟨"carbon monoxide", some (b.map nanToNum), none⟩])
  ∧ (entryConversions (normalizeEntry (some "f.csv") [("y CO (%)", b)] {})
      = some []) := by
  have h0a := hasNum_pos ha
  have h0b := hasNum_pos hb
  have hna : a ≠ [] := List.length_pos.mp h0a
  have hnb : b ≠ [] := List.length_pos.mp h0b
  have hcsv : splitextExt "f.csv" = ".csv" := rfl
  refine ⟨?_, ?_, ?_, ?_⟩ <;>
    (unfold normalizeEntry scanCols
     simp only [dropAllNan, hcsv, List.filter, ha, hb, Bool.or_true, List.foldlM]
     unfold processCol
     simp [pySplit, pySplitAux, strContains, occursIn, leadsWith,
           lookupCol, List.find?, h0a, h0b, hna, hnb, finishScan,
           entryConversions, entryProducts, okEntry, aliasName, reagentNormalize,
           productNormalize, iupacOf, renameFromReagents, conversionRename,
           productRename])

/-- C4 witness: the amended theorem applied to the concrete columns
`x CO (%) = [2]` and `y CO (%) = [1]`, where the conversion evaluates to
`(1 - 1/2) * 100 = 50`. -/
theorem C4_y_disambiguation_amended_witness :
    hasNum [Cell.num 2] = true ∧ hasNum [Cell.num 1] = true ∧
    entryConversions (normalizeEntry (some "f.csv")
        [("x CO (%)", [.num 2]), ("y CO (%)", [.num 1])] {})
      = some [⟨"carbon monoxide", some [.num 2], some [.num 1], some [.num 50],
              none, none, none⟩] := by
  refine ⟨rfl, rfl, ?_⟩
  have h := (C4_y_disambiguation_amended [.num 2] [.num 1] rfl rfl).1
  have h2 : (1 - (2 : ℚ)⁻¹) * 100 = 50 := by norm_num
  simpa [convCell, cdiv, oneMinus, cmul, nanToNum, h2] using h

/-- C5: evaluation at the failing input.  First conjunct: a table with an
`x_r CO (%)` column but neither `x CO (%)` nor `x CO` makes the ingestion
abort with an uncaught KeyError (the fallback lookup `data['x CO']` sits
inside the `except KeyError` handler, so its own KeyError bypasses the bare
`except` that follows and escapes `normalize`), contradicting the claim that
the scan logs and continues.  Second conjunct: the claim's fallback half does
hold — with `x CO` present, the inlet fraction falls back to that column
scaled by 100 (the stored entry carrying the canonicalized name
`carbon monoxide` from the in-repo CO resolution). -/
theorem C5_xr_missing_inlet_aborts :
    (normalizeEntry (some "f.csv") [("x_r CO (%)", [.num 50])] {}
      = .error .keyError)
  ∧ (entryConversions (normalizeEntry (some "f.csv")
        [("x CO", [.num 2]), ("x_r CO (%)", [.num 50])] {})
      = some [⟨"carbon monoxide", some [.num 200], none, some [.num 50],
              some "reactant-based conversion", none, some [.num 50]⟩]) := by
  refine ⟨rfl, ?_⟩
  have h2 : (2 : ℚ) * 100 = 200 := by norm_num
  have hcsv : splitextExt "f.csv" = ".csv" := rfl
  simp [normalizeEntry, scanCols, dropAllNan, List.filter, List.foldlM,
        processCol, pySplit, pySplitAux, lookupCol, List.find?, popScan,
        finishScan, entryConversions, okEntry, nanToNum, cmul, h2, hcsv,
        aliasName, reagentNormalize, strContains, occursIn, leadsWith,
        linspaceRuns, iupacOf, renameFromReagents, conversionRename,
        productRename, productNormalize]

/-- C9: a column whose header has first token `step` and at least two tokens
(`step 1` here), with at least one numeric data point and no column named
exactly `step`, makes the ingestion abort with an uncaught lookup error,
because the branch reads the fixed column name `data['step']` rather than
the matched column. -/
theorem C9_step_token_aborts (s : List Cell) (hs : hasNum s = true) :
    normalizeEntry (some "f.csv") [("step 1", s)] {} = .error .keyError := by
  have h0 := hasNum_pos hs
  have hn : s ≠ [] := List.length_pos.mp h0
  have hcsv : splitextExt "f.csv" = ".csv" := rfl
  unfold normalizeEntry scanCols
  simp only [dropAllNan, hcsv, List.filter, hs, Bool.or_true, List.foldlM]
  unfold processCol
  simp [pySplit, pySplitAux, lookupCol, List.find?, h0, hn]

/-- C9 witness: the theorem applied to the one-cell column `step 1 = [1]`. -/
theorem C9_step_token_aborts_witness :
    hasNum [Cell.num 1] = true ∧
    normalizeEntry (some "f.csv") [("step 1", [.num 1])] {} = .error .keyError :=
  ⟨rfl, C9_step_token_aborts [.num 1] rfl⟩

/-- C6: with a data file set, an extension other than `.csv`/`.xlsx` makes
the call fail with the unsupported-format error before anything is read or
assigned (so no record is built and the section state is untouched), and a
`.csv`/`.xlsx` extension never produces the format error (the scan may still
abort with a lookup error, but not with the format error). -/
theorem C6_unsupported_format_gate (f : String) (t : RawTable) (st : EntryState) :
    (splitextExt f ≠ ".csv" → splitextExt f ≠ ".xlsx" →
      normalizeEntry (some f) t st = .error .unsupportedFormat)
  ∧ ((splitextExt f = ".csv" ∨ splitextExt f = ".xlsx") →
      normalizeEntry (some f) t st ≠ .error .unsupportedFormat) := by
  constructor
  · intro h1 h2
    unfold normalizeEntry
    simp [h1, h2]
  · intro h
    unfold normalizeEntry
    have hcond : (splitextExt f != ".csv" && splitextExt f != ".xlsx") = false := by
      rcases h with h | h <;> simp [h]
    simp only [hcond, Bool.false_eq_true, if_false]
    cases hs : scanCols (dropAllNan t) with
    | error e => cases e; simp [hs]
    | ok s => simp [hs]

/-- C6 witness: the gate theorem applied to `a.txt` (rejected, state
untouched) and to `a.csv` on the empty table (no format error). -/
theorem C6_unsupported_format_gate_witness :
    splitextExt "a.txt" ≠ ".csv" ∧ splitextExt "a.txt" ≠ ".xlsx" ∧
    normalizeEntry (some "a.txt") [] {} = .error .unsupportedFormat ∧
    splitextExt "a.csv" = ".csv" ∧
    normalizeEntry (some "a.csv") [] {} ≠ .error .unsupportedFormat := by
  refine ⟨by decide, by decide, ?_, rfl, ?_⟩
  · exact (C6_unsupported_format_gate "a.txt" [] {}).1 (by decide) (by decide)
  · exact (C6_unsupported_format_gate "a.csv" [] {}).2 (Or.inl rfl)

/-- C7 counterexample: a table whose `step` column holds `[5, 6, 7]` (with a
3-row `temperature K` column alongside) yields runs `[0, 1, 2]`, not
`[5, 6, 7]`: the column named exactly `step` has a single header token, so
the two-token filter skips it and the default run index is used, refuting
the claim that a present `step` column always supplies the run index. -/
theorem C7_counterexample :
    entryRuns (normalizeEntry (some "f.csv")
        [("step", [.num 5, .num 6, .num 7]),
         ("temperature K", [.num 300, .num 350, .num 400])] {})
      = some [.num 0, .num 1, .num 2]
  ∧ ([Cell.num 0, .num 1, .num 2] : List Cell) ≠ [.num 5, .num 6, .num 7] := by
  refine ⟨rfl, by decide⟩

/-- C7 (amended): with no `step`-prefixed column the run index defaults to
`0..N-1` (`N` the data-row count of the classified columns); a column named
exactly `step` is itself skipped by the two-token filter, so the default
applies regardless of its values; the run index equals the `step` column's
values only when a multi-token column whose first token is `step` is also
present to trigger the lookup of the literal `step` header. -/
theorem C7_runs_default_amended (v s w : List Cell) (hv : hasNum v = true)
    (hs : hasNum s = true) (hw : hasNum w = true) :
    (entryRuns (normalizeEntry (some "f.csv") [("temperature K", v)] {})
      = some (linspaceRuns v.length))
  ∧ (entryRuns (normalizeEntry (some "f.csv")
        [("step", s), ("temperature K", v)] {}) = some (linspaceRuns v.length))
  ∧ (entryRuns (normalizeEntry (some "f.csv")
        [("step", s), ("step run", w)] {}) = some s) := by
  have h0v := hasNum_pos hv
  have h0w := hasNum_pos hw
  have hnv : v ≠ [] := List.length_pos.mp h0v
  have hnw : w ≠ [] := List.length_pos.mp h0w
  have hcsv : splitextExt "f.csv" = ".csv" := rfl
  refine ⟨?_, ?_, ?_⟩ <;>
    (unfold normalizeEntry scanCols
     simp only [dropAllNan, hcsv, List.filter, hv, hs, hw, Bool.or_true,
                List.foldlM]
     unfold processCol
     simp [pySplit, pySplitAux, strContains, occursIn, leadsWith,
           lookupCol, List.find?, h0v, h0w, hnv, hnw, finishScan,
           entryRuns, okEntry])

/-- C7 witness: the amended theorem at `v = [300, 350]`, `s = [5, 6]`,
`w = [7, 8]`: with only the single-token `step` column the runs default to
`[0, 1]`; with the additional `step run` column they equal `[5, 6]`. -/
theorem C7_runs_default_amended_witness :
    hasNum [Cell.num 300, Cell.num 350] = true ∧
    hasNum [Cell.num 5, Cell.num 6] = true ∧
    hasNum [Cell.num 7, Cell.num 8] = true ∧
    entryRuns (normalizeEntry (some "f.csv")
        [("step", [.num 5, .num 6]), ("temperature K", [.num 300, .num 350])] {})
      = some (linspaceRuns 2) ∧
    entryRuns (normalizeEntry (some "f.csv")
        [("step", [.num 5, .num 6]), ("step run", [.num 7, .num 8])] {})
      = some [.num 5, .num 6] := by
  have h := C7_runs_default_amended [.num 300, .num 350] [.num 5, .num 6]
    [.num 7, .num 8] rfl rfl rfl
  exact ⟨rfl, rfl, rfl, h.2.1, h.2.2⟩

/-- C8: the ingestion is idempotent — if a run on the section state `s`
produced the state `s1`, re-running the same ingestion on `s1` reproduces
`s1` exactly: the scan rebuilds the record purely from the table and the
only state-dependent assignment (the reactor filling, set only when none is
present) is already set after the first run. -/
theorem C8_idempotent (f : Option String) (t : RawTable) (s s1 : EntryState)
    (h : normalizeEntry f t s = .ok s1) : normalizeEntry f t s1 = .ok s1 := by
  cases f with
  | none =>
    simp only [normalizeEntry] at h ⊢
  | some fn =>
    simp only [normalizeEntry] at h ⊢
    by_cases hg : (splitextExt fn != ".csv" && splitextExt fn != ".xlsx") = true
    · rw [if_pos hg] at h; cases h
    · rw [if_neg hg] at h ⊢
      cases hsc : scanCols (dropAllNan t) with
      | error e =>
        cases e
        rw [hsc] at h
        simp at h
      | ok sc =>
        rw [hsc] at h
        simp only [Except.ok.injEq] at h ⊢
        rw [← h]
        exact finishScan_idem sc s

/-- C8 witness: running the pipeline twice on `idemTable` from a fresh
section state reproduces the same record both times. -/
theorem C8_idempotent_witness :
    normalizeEntry (some "f.csv") idemTable {} = .ok idemOut ∧
    normalizeEntry (some "f.csv") idemTable idemOut = .ok idemOut :=
  ⟨rfl, C8_idempotent (some "f.csv") idemTable {} idemOut rfl⟩

end NomadCatalysis
